import Mathlib

/-!
RangeSearch-CUDA, `sol/helper.h`.

A shallow embedding of the header `src/sol/helper.h`:

* the fatal-check macro `DIE(assertion, call_description)`, as a function on
  an explicit process state (what has been written to `stderr`, the current
  `errno`) returning an outcome that says whether control returns or the
  process has exited;
* the constant `DEGREE_TO_RADIANS`;
* the device function `geoDistance`, of which the header only holds the
  declaration: its body is modelled from the specification, in exact
  arithmetic over an ordered field, with the device math functions and the
  choice between the two formulas the specification allows as parameters.
-/

namespace Helper

/-! ## Process model for `DIE` -/

/-- The part of the C library `DIE` relies on and that the platform fixes:
`strerror` maps an error number to the text `perror` prints for it. -/
structure Libc where
  strerror : Int → String

/-- The process state `DIE` can observe or change: everything written to the
standard error stream so far, and the current value of `errno`. -/
structure Proc where
  stderr : String
  errno : Int
deriving DecidableEq, Repr

/-- What a statement leaves behind: either control returns and the next
statement runs in state `p`, or the process has terminated with `status`
and `p` is its final state. -/
inductive Outcome where
  | running (p : Proc)
  | exited (status : Int) (p : Proc)
deriving DecidableEq, Repr

/-- Sequential composition of C statements: the continuation `k` runs only
when control returns from what came before; a call to `exit` does not
return, so nothing runs after it. -/
def Outcome.andThen (o : Outcome) (k : Proc → Outcome) : Outcome :=
  match o with
  | Outcome.running p => k p
  | Outcome.exited status p => Outcome.exited status p

/-- The exit status, when the process has terminated. -/
def Outcome.status? : Outcome → Option Int
  | Outcome.running _ => none
  | Outcome.exited status _ => some status

/-- The process state carried by an outcome. -/
def Outcome.proc : Outcome → Proc
  | Outcome.running p => p
  | Outcome.exited _ p => p

/-- The macro `EXIT_FAILURE` of `<stdlib.h>`; its value is 1 in glibc and in
the Microsoft C runtime, the host platforms of CUDA. -/
def EXIT_FAILURE : Int := 1

/-- The text of `fprintf(stderr, "(%d): ", __LINE__)`: the conversion `%d`
prints the line number in decimal. -/
def lineText (line : Nat) : String :=
  "(" ++ toString line ++ "): "

/-- The call `fprintf(stderr, "(%d): ", __LINE__)`, modelled as a write that
succeeds: the formatted text is appended to the error stream and `errno`
keeps its value. -/
def fprintf_stderr (line : Nat) (p : Proc) : Proc :=
  { p with stderr := p.stderr ++ lineText line }

/-- The text `perror(s)` writes when `errno` is `e` (ISO C 7.21.10.4): the
string `s` followed by a colon and a space when `s` is not empty, then the
error message of `strerror(e)` and a new-line. -/
def perrorText (L : Libc) (s : String) (e : Int) : String :=
  (if s = "" then "" else s ++ ": ") ++ L.strerror e ++ "\n"

/-- The call `perror(s)`: appends the message for the current `errno` to the
error stream. -/
def perror (L : Libc) (s : String) (p : Proc) : Proc :=
  { p with stderr := p.stderr ++ perrorText L s p.errno }

/-- The call `exit(status)`: the process terminates with that status. -/
def exit (status : Int) (p : Proc) : Outcome :=
  Outcome.exited status p

/-- The macro `DIE(assertion, call_description)` expanded at source line
`line`:
```
do { if (assertion) {
       fprintf(stderr, "(%d): ", __LINE__);
       perror(call_description);
       exit(EXIT_FAILURE);
     } } while(0);
```
`assertion` is the value of the condition; C takes any non-zero value as
true. -/
def DIE (L : Libc) (line : Nat) (assertion : Int) (call_description : String)
    (p : Proc) : Outcome :=
  if assertion ≠ 0 then
    exit EXIT_FAILURE (perror L call_description (fprintf_stderr line p))
  else
    Outcome.running p

/-- The whole diagnostic of a triggered `DIE`: the line prefix, then the
`perror` text. -/
def diagnostic (L : Libc) (line : Nat) (call_description : String) (e : Int) : String :=
  lineText line ++ perrorText L call_description e

/-- The text `t` occurs in the text `s` as a contiguous piece. -/
def Occurs (t s : String) : Prop :=
  t.data <:+: s.data

instance Occurs.decidable (t s : String) : Decidable (Occurs t s) :=
  inferInstanceAs (Decidable (t.data <:+: s.data))

/-- A sample `strerror` table, with the texts glibc gives for `ENOENT` (2) and
`ENOMEM` (12); used to evaluate the model on concrete inputs. -/
def sampleLibc : Libc where
  strerror := fun e =>
    if e = 2 then "No such file or directory"
    else if e = 12 then "Cannot allocate memory"
    else "Unknown error " ++ toString e

/-! ## The conversion constant -/

/-- The macro `DEGREE_TO_RADIANS`, written `0.01745329252f` in the header: the
decimal numeral as it is written, read as an exact rational. The suffix `f`
makes the C constant the single-precision number nearest to this decimal,
which is `DEGREE_TO_RADIANS_f32`. -/
def DEGREE_TO_RADIANS : ℚ := 1745329252 / 100000000000

/-- The single-precision (binary32) number the token `0.01745329252f`
denotes: significand 9370165 (24 bits), exponent -29. -/
def DEGREE_TO_RADIANS_f32 : ℚ := 9370165 / 2 ^ 29

/-! ## The distance function -/

/-- Modelled from the spec: the device math functions the body of
`geoDistance` calls (sine, cosine, square root, inverse sine, inverse
cosine); the header holds neither the body nor these functions, so they are
a parameter. -/
structure DeviceMath (F : Type) where
  sinf : F → F
  cosf : F → F
  sqrtf : F → F
  asinf : F → F
  acosf : F → F

/-- Modelled from the spec: "the Earth's mean radius constant", of "~6371 km";
the constant is in the missing body of `geoDistance`. -/
def EARTH_RADIUS : ℚ := 6371

/-- Modelled from the spec: the clamping of a value to the interval
`[lo, hi]`, which the spec requires of the argument of the inverse
trigonometric step; it is part of the missing body of `geoDistance`. -/
def clamp {F : Type} [LinearOrder F] (lo hi x : F) : F :=
  max lo (min hi x)

/-- Modelled from the spec: the spherical formula in the missing body of
`geoDistance`, which the spec leaves open: "haversine or equivalent
spherical law of cosines". -/
inductive Formula where
  | haversine
  | cosines
deriving DecidableEq, Repr

/-- Modelled from the spec: step 2 of section 4.1, the angular separation in
radians of two points given in radians, by the haversine formula or by the
spherical law of cosines, the argument of the inverse trigonometric function
clamped to `[-1, 1]`; it is part of the missing body of `geoDistance`. -/
def angularSeparation {F : Type} [LinearOrderedField F] (fm : Formula) (m : DeviceMath F)
    (phi1 lam1 phi2 lam2 : F) : F :=
  match fm with
  | Formula.haversine =>
    let dphi := phi2 - phi1
    let dlam := lam2 - lam1
    let a := m.sinf (dphi / 2) ^ 2 + m.cosf phi1 * m.cosf phi2 * m.sinf (dlam / 2) ^ 2
    2 * m.asinf (clamp (-1) 1 (m.sqrtf a))
  | Formula.cosines =>
    let dlam := lam2 - lam1
    let x := m.sinf phi1 * m.sinf phi2 + m.cosf phi1 * m.cosf phi2 * m.cosf dlam
    m.acosf (clamp (-1) 1 x)

/-- Modelled from the spec: the body of `geoDistance`, of which
`src/sol/helper.h` only declares
`__device__ float geoDistance(float lat1, float lon1, float lat2, float lon2)`.
The steps are those of section 4.1 of the spec: the four inputs in degrees
are converted to radians with `DEGREE_TO_RADIANS`, the angular separation is
computed, and it is multiplied by the Earth radius. Numbers are elements of
an ordered field `F` (exact arithmetic), not single-precision values. -/
def geoDistance {F : Type} [LinearOrderedField F] (fm : Formula) (m : DeviceMath F)
    (lat1 lon1 lat2 lon2 : F) : F :=
  let phi1 := lat1 * (DEGREE_TO_RADIANS : F)
  let lam1 := lon1 * (DEGREE_TO_RADIANS : F)
  let phi2 := lat2 * (DEGREE_TO_RADIANS : F)
  let lam2 := lon2 * (DEGREE_TO_RADIANS : F)
  (EARTH_RADIUS : F) * angularSeparation fm m phi1 lam1 phi2 lam2

/-- Modelled from the spec: the device math functions are the exact real
functions (no rounding). -/
def IsExact (m : DeviceMath ℝ) : Prop :=
  m.sinf = Real.sin ∧ m.cosf = Real.cos ∧ m.sqrtf = Real.sqrt ∧ m.asinf = Real.arcsin
    ∧ m.acosf = Real.arccos

/-! ## Facts about occurrence in a text -/

theorem DIE_of_ne_zero (L : Libc) (line : Nat) (c : Int) (d : String) (p : Proc)
    (h : c ≠ 0) :
    DIE L line c d p
      = Outcome.exited EXIT_FAILURE ⟨p.stderr ++ diagnostic L line d p.errno, p.errno⟩ := by
  simp [DIE, h, exit, perror, fprintf_stderr, diagnostic, String.append_assoc]

theorem DIE_of_zero (L : Libc) (line : Nat) (d : String) (p : Proc) :
    DIE L line 0 d p = Outcome.running p := by
  simp [DIE]

/-! ## Facts about the distance model -/

theorem earth_radius_cast : ((EARTH_RADIUS : ℚ) : ℝ) = 6371 := by
  simp [EARTH_RADIUS]

theorem angularSeparation_symm {F : Type} [LinearOrderedField F] (fm : Formula)
    (m : DeviceMath F) (hodd : ∀ x, m.sinf (-x) = -m.sinf x)
    (heven : ∀ x, m.cosf (-x) = m.cosf x) (phi1 lam1 phi2 lam2 : F) :
    angularSeparation fm m phi1 lam1 phi2 lam2 = angularSeparation fm m phi2 lam2 phi1 lam1 := by
  cases fm with
  | haversine =>
    have key : ∀ x y : F, m.sinf ((x - y) / 2) ^ 2 = m.sinf ((y - x) / 2) ^ 2 := by
      intro x y
      have hxy : (x - y) / 2 = -((y - x) / 2) := by ring
      rw [hxy, hodd, neg_sq]
    simp only [angularSeparation]
    rw [key phi2 phi1, key lam2 lam1, mul_comm (m.cosf phi1)]
  | cosines =>
    have key : ∀ x y : F, m.cosf (x - y) = m.cosf (y - x) := by
      intro x y
      rw [← neg_sub, heven]
    simp only [angularSeparation]
    rw [key lam2 lam1, mul_comm (m.sinf phi1), mul_comm (m.cosf phi1)]

theorem isExact_real : IsExact ⟨Real.sin, Real.cos, Real.sqrt, Real.arcsin, Real.arccos⟩ :=
  ⟨rfl, rfl, rfl, rfl, rfl⟩

theorem geoDistance_nonneg_of_exact (fm : Formula) (m : DeviceMath ℝ) (hm : IsExact m)
    (lat1 lon1 lat2 lon2 : ℝ) : 0 ≤ geoDistance fm m lat1 lon1 lat2 lon2 := by
  obtain ⟨hs, hc, hq, ha, hac⟩ := hm
  have hR : (0 : ℝ) ≤ ((EARTH_RADIUS : ℚ) : ℝ) := by
    rw [earth_radius_cast]
    norm_num
  refine mul_nonneg hR ?_
  cases fm with
  | haversine =>
    simp only [angularSeparation, hq, ha]
    have hcl : ∀ x : ℝ, 0 ≤ clamp (-1) 1 (Real.sqrt x) := fun x =>
      le_max_of_le_right (le_min zero_le_one (Real.sqrt_nonneg x))
    exact mul_nonneg zero_le_two (Real.arcsin_nonneg.mpr (hcl _))
  | cosines =>
    simp only [angularSeparation, hac]
    exact Real.arccos_nonneg _

theorem DEGREE_TO_RADIANS_f32_nearest :
    |DEGREE_TO_RADIANS - DEGREE_TO_RADIANS_f32| ≤ 1 / 2 ^ 30
      ∧ (2 : ℚ) ^ 23 ≤ 9370165 ∧ (9370165 : ℚ) < 2 ^ 24 := by
  refine ⟨?_, by norm_num, by norm_num⟩
  rw [abs_le]
  constructor <;> norm_num [DEGREE_TO_RADIANS, DEGREE_TO_RADIANS_f32]

theorem DEGREE_TO_RADIANS_f32_gap :
    1 / 10 ^ 10 < |(DEGREE_TO_RADIANS_f32 : ℝ) - Real.pi / 180|
      ∧ 1 / 10 ^ 8 < |180 * (DEGREE_TO_RADIANS_f32 : ℝ) - Real.pi| := by
  have hpi := Real.pi_gt_d20
  norm_num at hpi
  have hc : ((DEGREE_TO_RADIANS_f32 : ℚ) : ℝ) = 9370165 / 2 ^ 29 := by
    simp [DEGREE_TO_RADIANS_f32]
  rw [hc]
  constructor
  · rw [lt_abs]
    right
    norm_num
    linarith
  · rw [lt_abs]
    right
    norm_num
    linarith

/-! ## The fatal check `DIE` -/

/-- C2: when `DIE` is invoked with a zero (false) condition, for every
description and every state, it does nothing: control returns in the state
it was entered in, so nothing was written to the error stream, the process
has not exited, and the next statement runs in the unchanged state. -/
theorem DIE_false_is_noop (L : Libc) (line : Nat) (d : String) (p : Proc)
    (k : Proc → Outcome) :
    DIE L line 0 d p = Outcome.running p
      ∧ (DIE L line 0 d p).proc.stderr = p.stderr
      ∧ (DIE L line 0 d p).status? = none
      ∧ (DIE L line 0 d p).andThen k = k p := by
  simp [DIE_of_zero, Outcome.proc, Outcome.status?, Outcome.andThen]

/-- C10: whether `DIE` ends the process, and with which status, depends only
on whether the condition is zero: two invocations whose conditions agree on
that have the same exit status, whatever their `strerror` tables, line
numbers, descriptions, error streams and `errno` values; for a non-zero
condition that status is the constant `EXIT_FAILURE`. -/
theorem DIE_status_depends_only_on_condition (L1 L2 : Libc) (n1 n2 : Nat) (c1 c2 : Int)
    (d1 d2 : String) (p1 p2 : Proc) (h : c1 ≠ 0 ↔ c2 ≠ 0) :
    (DIE L1 n1 c1 d1 p1).status? = (DIE L2 n2 c2 d2 p2).status?
      ∧ (c1 ≠ 0 → (DIE L1 n1 c1 d1 p1).status? = some EXIT_FAILURE) := by
  by_cases h1 : c1 = 0
  · have h2 : c2 = 0 := by
      by_contra hc
      exact (h.mpr hc) h1
    subst h1
    subst h2
    simp [DIE_of_zero, Outcome.status?]
  · have h2 : c2 ≠ 0 := h.mp h1
    simp [DIE_of_ne_zero L1 n1 c1 d1 p1 h1, DIE_of_ne_zero L2 n2 c2 d2 p2 h2,
      Outcome.status?]

theorem DIE_status_depends_only_on_condition_witness :
    ((1 : Int) ≠ 0 ↔ (-7 : Int) ≠ 0)
      ∧ (DIE sampleLibc 10 1 "malloc" ⟨"", 12⟩).status?
          = (DIE sampleLibc 250 (-7) "fopen" ⟨"earlier output\n", 2⟩).status?
      ∧ ((1 : Int) ≠ 0 → (DIE sampleLibc 10 1 "malloc" ⟨"", 12⟩).status? = some 1) :=
  ⟨by decide, DIE_status_depends_only_on_condition sampleLibc sampleLibc 10 250 1 (-7)
    "malloc" "fopen" ⟨"", 12⟩ ⟨"earlier output\n", 2⟩ (by decide)⟩

/-! ## The constant `DEGREE_TO_RADIANS` -/

/-- C6: symmetry of `geoDistance`, in exact arithmetic and for either formula
the spec allows: for all points `(lat1, lon1)` and `(lat2, lon2)` the
distance from the first to the second equals the distance from the second
to the first. -/
theorem geoDistance_symm (fm : Formula) (m : DeviceMath ℝ) (hm : IsExact m)
    (lat1 lon1 lat2 lon2 : ℝ) :
    geoDistance fm m lat1 lon1 lat2 lon2 = geoDistance fm m lat2 lon2 lat1 lon1 := by
  obtain ⟨hs, hc, _, _, _⟩ := hm
  simp only [geoDistance]
  rw [angularSeparation_symm fm m (by rw [hs]; exact Real.sin_neg)
    (by rw [hc]; exact Real.cos_neg)]

theorem geoDistance_symm_witness :
    IsExact ⟨Real.sin, Real.cos, Real.sqrt, Real.arcsin, Real.arccos⟩
      ∧ geoDistance Formula.cosines ⟨Real.sin, Real.cos, Real.sqrt, Real.arcsin, Real.arccos⟩
            44.4268 26.1025 48.8566 2.3522
          = geoDistance Formula.cosines
            ⟨Real.sin, Real.cos, Real.sqrt, Real.arcsin, Real.arccos⟩
            48.8566 2.3522 44.4268 26.1025 :=
  ⟨isExact_real, geoDistance_symm Formula.cosines
    ⟨Real.sin, Real.cos, Real.sqrt, Real.arcsin, Real.arccos⟩ isExact_real
    44.4268 26.1025 48.8566 2.3522⟩

end Helper
